import Mathlib

/-!
Verification of the water-extraction calculator core (src/src/App.tsx).

Modelling conventions:
* Numbers are exact rationals (`Rat`): the source formula and its spec are
  stated in exact arithmetic and apply no internal rounding.
* The six numeric form fields are strings in the source, read through
  `parseFloat`.  `FormData` models each field by the result of that parse:
  `none` for a missing/empty or non-numeric entry (where `parseFloat`
  yields `NaN`), `some q` for an entry parsing to the number `q`.
* `JSFormData` refines this by the full range of `parseFloat` results:
  `JSNum` adds `NaN` and the two infinities (reachable through overflowing
  literals such as "1e999") to the exact finite values, with JavaScript
  comparison and IEEE special-value arithmetic on them.
* `toFixed d` follows the ECMAScript specification for non-negative
  arguments: the rendered integer `n` minimises `|n / 10^d - x|`, ties
  resolved towards the larger `n`, i.e. `n = ⌊x·10^d + 1/2⌋`.
-/

/-- Mirrors `interface CropType` (App.tsx lines 4-10). -/
structure CropType where
  id : String
  name : String
  scientificName : String
  biomassFactor : Rat
  moistureContent : Rat
deriving DecidableEq

/-- Mirrors `interface FormData` (App.tsx lines 12-20); numeric fields hold
their `parseFloat` image, `none` meaning empty or non-numeric. -/
structure FormData where
  cropType : String
  totalMass : Option Rat
  lossFraction : Option Rat
  processingFactor : Option Rat
  moistureContent : Option Rat
  recoveryEfficiency : Option Rat
  biomassFactor : Option Rat
deriving DecidableEq

/-- Mirrors `interface ValidationErrors` (App.tsx lines 22-29): every field
optionally carries an error message. -/
structure ValidationErrors where
  totalMass : Option String
  lossFraction : Option String
  processingFactor : Option String
  moistureContent : Option String
  recoveryEfficiency : Option String
  biomassFactor : Option String
deriving DecidableEq

/-- Mirrors the constant list `CROP_TYPES` (App.tsx lines 31-60). -/
def CROP_TYPES : List CropType := [
  ⟨"tunisian-olive", "Tunisian Olive", "Olea europaea L. cv. Chemlali", 0.175, 72.5⟩,
  ⟨"koroneiki-olive", "Koroneiki Olive", "Olea europaea L. cv. Koroneiki", 0.20, 70⟩,
  ⟨"leccino-olive", "Leccino Olive", "Olea europaea L. cv. Leccino", 0.16, 72.5⟩,
  ⟨"apple-tree", "Apple Tree", "Malus domestica", 0.12, 80⟩]

/-- Mirrors `const WATER_DENSITY = 1; // kg/L` (App.tsx line 81). -/
def WATER_DENSITY : Rat := 1

/-- Mirrors `const selectedCrop = CROP_TYPES.find(crop => crop.id ===
formData.cropType) || CROP_TYPES[0]` (App.tsx line 84). -/
def selectedCrop (cropType : String) : CropType :=
  (CROP_TYPES.find? (fun c => c.id == cropType)).getD (CROP_TYPES.head (by decide))

/-- Mirrors `validateInputs` (App.tsx lines 86-127).  Each field is checked
independently; a failing check records that field's message string. -/
def validateInputs (formData : FormData) : ValidationErrors where
  totalMass :=
    match formData.totalMass with
    | none => some "Please enter a valid positive mass value"
    | some totalMass =>
        if totalMass ≤ 0 then some "Please enter a valid positive mass value" else none
  lossFraction :=
    match formData.lossFraction with
    | none => some "Loss fraction must be between 0 and 100%"
    | some lossFraction =>
        if lossFraction < 0 ∨ lossFraction > 100 then
          some "Loss fraction must be between 0 and 100%"
        else none
  processingFactor :=
    match formData.processingFactor with
    | none => some "Processing factor must be a positive number"
    | some processingFactor =>
        if processingFactor ≤ 0 then some "Processing factor must be a positive number"
        else none
  moistureContent :=
    match formData.moistureContent with
    | none => some "Moisture content must be between 0 and 100%"
    | some moistureContent =>
        if moistureContent < 0 ∨ moistureContent > 100 then
          some "Moisture content must be between 0 and 100%"
        else none
  recoveryEfficiency :=
    match formData.recoveryEfficiency with
    | none => some "Recovery efficiency must be between 0 and 100%"
    | some recoveryEfficiency =>
        if recoveryEfficiency < 0 ∨ recoveryEfficiency > 100 then
          some "Recovery efficiency must be between 0 and 100%"
        else none
  biomassFactor :=
    match formData.biomassFactor with
    | none => some "Biomass factor must be a positive number"
    | some biomassFactor =>
        if biomassFactor ≤ 0 then some "Biomass factor must be a positive number"
        else none

/-- Mirrors `Object.keys(newErrors).length === 0` (App.tsx line 126): the
validation succeeds when no field carries a message. -/
def ValidationErrors.isEmpty (e : ValidationErrors) : Bool :=
  e.totalMass.isNone && e.lossFraction.isNone && e.processingFactor.isNone &&
  e.moistureContent.isNone && e.recoveryEfficiency.isNone && e.biomassFactor.isNone

/-- Mirrors the numeric core of `calculateWaterVolume` (App.tsx lines
129-153): it returns early when validation fails, otherwise computes
`(M_h * F_b * (1 - L_c) * E_p * MC * eta) / WATER_DENSITY`.  The animation
delay and React state writes are presentation-only and not modelled. -/
def calculateWaterVolume (formData : FormData) : Option Rat :=
  if (validateInputs formData).isEmpty then
    match formData.totalMass, formData.lossFraction, formData.processingFactor,
        formData.moistureContent, formData.recoveryEfficiency, formData.biomassFactor with
    | some mh, some lf, some ep, some mc, some re, some fb =>
        some ((mh * fb * (1 - lf / 100) * ep * (mc / 100) * (re / 100)) / WATER_DENSITY)
    | _, _, _, _, _, _ => none
  else none

/-- Mirrors the crop-change effect (App.tsx lines 156-165): when the selected
crop id is found in the catalog, overwrite `biomassFactor` and
`moistureContent` with the profile's values; otherwise do nothing. -/
def cropChangeEffect (formData : FormData) : FormData :=
  match CROP_TYPES.find? (fun c => c.id == formData.cropType) with
  | some crop =>
      { formData with
        biomassFactor := some crop.biomassFactor
        moistureContent := some crop.moistureContent }
  | none => formData

/-- Floor of a rational as an integer (denominators are positive). -/
def ratFloor (q : Rat) : Int := q.num.fdiv q.den

/-- Left-pads a digit string with zeros to length `d`. -/
def padZeros (s : String) (d : Nat) : String :=
  String.mk (List.replicate (d - s.length) '0') ++ s

/-- ECMAScript `Number.prototype.toFixed` on exact rationals: render the
integer nearest to `x·10^d` (ties towards the larger integer) with a decimal
point inserted `d` digits from the right. -/
def toFixed (x : Rat) (d : Nat) : String :=
  let n : Int := ratFloor (x * 10 ^ d + 1 / 2)
  if d = 0 then toString n
  else
    let sign := if n < 0 then "-" else ""
    let m := n.natAbs
    sign ++ toString (m / 10 ^ d) ++ "." ++ padZeros (toString (m % 10 ^ d)) d

/-- Mirrors `formatResult` (App.tsx lines 187-197). -/
def formatResult (volume : Rat) : String :=
  if volume < 0.001 then
    toFixed (volume * 1000) 2 ++ " mL"
  else if volume < 1 then
    toFixed (volume * 1000) 0 ++ " mL"
  else if volume < 1000 then
    toFixed volume 2 ++ " L"
  else
    toFixed (volume / 1000) 2 ++ " m³"

/-- The unit-scaling policy exactly as the spec words it, with explicit
half-open intervals (spec section 4.2, `format`). -/
def formatSpecPolicy (volume : Rat) : String :=
  if volume < 0.001 then
    toFixed (volume * 1000) 2 ++ " mL"
  else if 0.001 ≤ volume ∧ volume < 1 then
    toFixed (volume * 1000) 0 ++ " mL"
  else if 1 ≤ volume ∧ volume < 1000 then
    toFixed volume 2 ++ " L"
  else
    toFixed (volume / 1000) 2 ++ " m³"

/-- The first catalog entry, used as fallback by `selectedCrop`. -/
def tunisianOliveCrop : CropType :=
  ⟨"tunisian-olive", "Tunisian Olive", "Olea europaea L. cv. Chemlali", 0.175, 72.5⟩

/-- The second catalog entry. -/
def koroneikiCrop : CropType :=
  ⟨"koroneiki-olive", "Koroneiki Olive", "Olea europaea L. cv. Koroneiki", 0.20, 70⟩

/-- Scenario 1 form: tunisian-olive defaults with 100 kg of mass. -/
def fd100 : FormData :=
  ⟨"tunisian-olive", some 100, some 20, some 1, some 72.5, some 50, some 0.175⟩

/-- Scenario 2 form: tunisian-olive defaults with 10 kg of mass. -/
def fd10 : FormData :=
  ⟨"tunisian-olive", some 10, some 20, some 1, some 72.5, some 50, some 0.175⟩

/-- Scenario 4 form: loss fraction 150, all other fields valid. -/
def fdLoss150 : FormData :=
  ⟨"tunisian-olive", some 100, some 150, some 1, some 72.5, some 50, some 0.175⟩

/-- A form whose crop id is absent from the catalog while its crop-derived
fields still hold the koroneiki values. -/
def fdUnknownCrop : FormData :=
  ⟨"mystery-olive", some 100, some 20, some 1, some 70, some 50, some 0.20⟩

/-- A form selecting koroneiki-olive before the crop-change effect runs. -/
def fdKoroneiki : FormData :=
  ⟨"koroneiki-olive", some 100, some 20, some 1, some 72.5, some 50, some 0.175⟩

/-- A JavaScript number as produced by `parseFloat`, refining the plain
rational model: besides finite values (kept as exact rationals), `parseFloat`
can yield `NaN` (empty or non-numeric text) and the two infinities
(overflowing literals such as "1e999").  The two IEEE zero signs are both
modelled by `fin 0`; the sign of zero never influences the operations the
program performs on validated inputs. -/
inductive JSNum where
  | nan : JSNum
  | inf (pos : Bool) : JSNum
  | fin (q : Rat) : JSNum
deriving DecidableEq

/-- JavaScript `isNaN`. -/
def JSNum.isNaN : JSNum → Bool
  | .nan => true
  | _ => false

/-- True exactly for finite values. -/
def JSNum.isFinite : JSNum → Bool
  | .fin _ => true
  | _ => false

/-- JavaScript `<` on numbers: any comparison with NaN is false,
`-Infinity` is below and `+Infinity` above every other value. -/
def JSNum.lt : JSNum → JSNum → Bool
  | .nan, _ => false
  | _, .nan => false
  | .inf true, _ => false
  | .inf false, .inf false => false
  | .inf false, _ => true
  | .fin _, .inf b => b
  | .fin a, .fin b => decide (a < b)

/-- JavaScript `<=` on numbers: false when either side is NaN, otherwise
the negation of the reversed strict comparison. -/
def JSNum.le (a b : JSNum) : Bool := !a.isNaN && !b.isNaN && !(JSNum.lt b a)

/-- IEEE multiplication: NaN propagates, zero times an infinity is NaN,
signs multiply. -/
def JSNum.mul : JSNum → JSNum → JSNum
  | .nan, _ => .nan
  | _, .nan => .nan
  | .inf a, .inf b => .inf (a == b)
  | .inf a, .fin q => if q = 0 then .nan else .inf (a == decide (0 < q))
  | .fin q, .inf a => if q = 0 then .nan else .inf (a == decide (0 < q))
  | .fin a, .fin b => .fin (a * b)

/-- IEEE subtraction: NaN propagates, equal-signed `∞ - ∞` is NaN. -/
def JSNum.sub : JSNum → JSNum → JSNum
  | .nan, _ => .nan
  | _, .nan => .nan
  | .inf a, .inf b => if a == b then .nan else .inf a
  | .inf a, .fin _ => .inf a
  | .fin _, .inf b => .inf (!b)
  | .fin a, .fin b => .fin (a - b)

/-- IEEE division: NaN propagates, `∞ / ∞` and `0 / 0` are NaN, a finite
value over an infinity is zero, division by the (unsigned) zero follows the
`+0` convention. -/
def JSNum.div : JSNum → JSNum → JSNum
  | .nan, _ => .nan
  | _, .nan => .nan
  | .inf _, .inf _ => .nan
  | .inf a, .fin q => if q = 0 then .inf a else .inf (a == decide (0 < q))
  | .fin _, .inf _ => .fin 0
  | .fin a, .fin b =>
      if b = 0 then (if a = 0 then .nan else .inf (decide (0 < a))) else .fin (a / b)

/-- The form with each numeric field as its full `parseFloat` image,
including NaN and the infinities (refines `FormData`, whose `Option Rat`
fields cannot express an infinite parse result). -/
structure JSFormData where
  cropType : String
  totalMass : JSNum
  lossFraction : JSNum
  processingFactor : JSNum
  moistureContent : JSNum
  recoveryEfficiency : JSNum
  biomassFactor : JSNum
deriving DecidableEq

/-- Mirrors `validateInputs` (App.tsx lines 86-127) over full JavaScript
numbers.  The source's extra `!formData.totalMass` test for the empty string
is subsumed by the NaN check, since `parseFloat("")` is NaN. -/
def validateInputsJS (formData : JSFormData) : ValidationErrors where
  totalMass :=
    if formData.totalMass.isNaN || formData.totalMass.le (.fin 0) then
      some "Please enter a valid positive mass value"
    else none
  lossFraction :=
    if formData.lossFraction.isNaN || formData.lossFraction.lt (.fin 0) ||
        (JSNum.fin 100).lt formData.lossFraction then
      some "Loss fraction must be between 0 and 100%"
    else none
  processingFactor :=
    if formData.processingFactor.isNaN || formData.processingFactor.le (.fin 0) then
      some "Processing factor must be a positive number"
    else none
  moistureContent :=
    if formData.moistureContent.isNaN || formData.moistureContent.lt (.fin 0) ||
        (JSNum.fin 100).lt formData.moistureContent then
      some "Moisture content must be between 0 and 100%"
    else none
  recoveryEfficiency :=
    if formData.recoveryEfficiency.isNaN || formData.recoveryEfficiency.lt (.fin 0) ||
        (JSNum.fin 100).lt formData.recoveryEfficiency then
      some "Recovery efficiency must be between 0 and 100%"
    else none
  biomassFactor :=
    if formData.biomassFactor.isNaN || formData.biomassFactor.le (.fin 0) then
      some "Biomass factor must be a positive number"
    else none

/-- Mirrors `calculateWaterVolume` (App.tsx lines 140-153) over full
JavaScript numbers, with IEEE special-value propagation and the source's
left-to-right association of the formula. -/
def calculateWaterVolumeJS (formData : JSFormData) : Option JSNum :=
  if (validateInputsJS formData).isEmpty then
    some ((((((formData.totalMass.mul formData.biomassFactor).mul
        ((JSNum.fin 1).sub (formData.lossFraction.div (.fin 100)))).mul
        formData.processingFactor).mul
        (formData.moistureContent.div (.fin 100))).mul
        (formData.recoveryEfficiency.div (.fin 100))).div (.fin WATER_DENSITY))
  else none

/-- A form whose mass field parsed to `+Infinity` (for example the typed
input "1e999"), other fields at the tunisian-olive defaults. -/
def jsFormInfMass : JSFormData :=
  ⟨"tunisian-olive", .inf true, .fin 20, .fin 1, .fin 72.5, .fin 50, .fin 0.175⟩

/-- Infinite mass together with a loss fraction of exactly 100. -/
def jsFormInfMassFullLoss : JSFormData :=
  ⟨"tunisian-olive", .inf true, .fin 100, .fin 1, .fin 72.5, .fin 50, .fin 0.175⟩

/-- The scenario-1 form over JavaScript numbers. -/
def jsFd100 : JSFormData :=
  ⟨"tunisian-olive", .fin 100, .fin 20, .fin 1, .fin 72.5, .fin 50, .fin 0.175⟩

lemma isEmpty_fields (e : ValidationErrors) (h : e.isEmpty = true) :
    e.totalMass = none ∧ e.lossFraction = none ∧ e.processingFactor = none ∧
    e.moistureContent = none ∧ e.recoveryEfficiency = none ∧ e.biomassFactor = none := by
  simp only [ValidationErrors.isEmpty, Bool.and_eq_true, Option.isNone_iff_eq_none] at h
  exact ⟨h.1.1.1.1.1, h.1.1.1.1.2, h.1.1.1.2, h.1.1.2, h.1.2, h.2⟩

attribute [local semireducible] Rat.ofScientific Rat.mul Rat.inv Rat.add Rat.sub

/-- Claim C1: for every form whose six numeric fields pass validation,
`calculateWaterVolume` returns exactly
`totalMass * biomassFactor * (1 - lossFraction/100) * processingFactor *
(moistureContent/100) * (recoveryEfficiency/100)` divided by the fixed water
density 1 kg/L, with no internal rounding (the arithmetic is exact). -/
theorem calculateWaterVolume_exact_formula (fd : FormData)
    (mh lf ep mc re fb : Rat)
    (hv : (validateInputs fd).isEmpty = true)
    (h1 : fd.totalMass = some mh) (h2 : fd.lossFraction = some lf)
    (h3 : fd.processingFactor = some ep) (h4 : fd.moistureContent = some mc)
    (h5 : fd.recoveryEfficiency = some re) (h6 : fd.biomassFactor = some fb) :
    calculateWaterVolume fd =
      some (mh * fb * (1 - lf / 100) * ep * (mc / 100) * (re / 100) / 1) := by
  simp [calculateWaterVolume, hv, h1, h2, h3, h4, h5, h6, WATER_DENSITY]

/-- Witness for C1, on the scenario-1 form. -/
theorem calculateWaterVolume_exact_formula_witness :
    calculateWaterVolume fd100 =
      some ((100 : Rat) * 0.175 * (1 - 20 / 100) * 1 * (72.5 / 100) * (50 / 100) / 1) :=
  calculateWaterVolume_exact_formula fd100 100 20 1 72.5 50 0.175
    (by decide) rfl rfl rfl rfl rfl rfl

/-- Claim C4: with the tunisian-olive defaults (biomassFactor 0.175,
moistureContent 72.5, loss 20, processing 1.0, recovery 50), a total mass of
100 kg yields exactly 5.075 L rendered `5.08 L`, and 10 kg yields exactly
0.5075 L rendered `508 mL`. -/
theorem tunisianOlive_default_scenarios :
    calculateWaterVolume fd100 = some 5.075 ∧ formatResult 5.075 = "5.08 L" ∧
    calculateWaterVolume fd10 = some 0.5075 ∧ formatResult 0.5075 = "508 mL" := by
  refine ⟨by decide, ?_, by decide, ?_⟩ <;> decide

/-- Claim C5: the catalog holds exactly the four documented profiles, with
the documented numeric constants, and `find?` (the lookup) on each of the
four ids returns the corresponding profile. -/
theorem cropCatalog_contents :
    CROP_TYPES.map (fun c => (c.id, c.name, c.biomassFactor, c.moistureContent)) =
      [("tunisian-olive", "Tunisian Olive", (0.175 : Rat), (72.5 : Rat)),
       ("koroneiki-olive", "Koroneiki Olive", 0.20, 70),
       ("leccino-olive", "Leccino Olive", 0.16, 72.5),
       ("apple-tree", "Apple Tree", 0.12, 80)] ∧
    CROP_TYPES.find? (fun c => c.id == "tunisian-olive") = some tunisianOliveCrop ∧
    CROP_TYPES.find? (fun c => c.id == "koroneiki-olive") = some koroneikiCrop ∧
    CROP_TYPES.find? (fun c => c.id == "leccino-olive") =
      some ⟨"leccino-olive", "Leccino Olive", "Olea europaea L. cv. Leccino", 0.16, 72.5⟩ ∧
    CROP_TYPES.find? (fun c => c.id == "apple-tree") =
      some ⟨"apple-tree", "Apple Tree", "Malus domestica", 0.12, 80⟩ := by
  decide

/-- Claim C10: there is a volume strictly below 1 L (0.9996 L, inside the
interval [0.9995, 1)) that the milliliter branch renders as `1000 mL`,
because rounding to 0 decimals happens before the 1-liter unit switch. -/
theorem formatResult_renders_1000mL_below_one_liter :
    (0.9995 : Rat) ≤ 0.9996 ∧ (0.9996 : Rat) < 1 ∧
    formatResult 0.9996 = "1000 mL" := by
  decide

/-- Claim C3: `formatResult` implements the spec's unit-scaling policy with
its exact half-open boundaries (`< 0.001` mL 2dp, `[0.001,1)` mL 0dp,
`[1,1000)` L 2dp, `>= 1000` m³ 2dp), and in particular renders exactly 1 L
in liters and exactly 1000 L in cubic meters. -/
theorem formatResult_unit_policy :
    (∀ v : Rat, formatResult v = formatSpecPolicy v) ∧
    formatResult 1 = "1.00 L" ∧ formatResult 1000 = "1.00 m³" := by
  refine ⟨fun v => ?_, by decide, by decide⟩
  unfold formatResult formatSpecPolicy
  by_cases h1 : v < 0.001
  · simp [h1]
  · by_cases h2 : v < 1
    · simp [h1, h2, not_lt.mp h1]
    · by_cases h3 : v < 1000
      · simp [h1, h2, h3, not_lt.mp h2]
      · simp [h1, h2, h3]

/-- Claim C6 counterexample: for the unknown id "mystery-olive" the lookup
does signal not-found, yet the crop-change effect does not install the first
entry's values 0.175 / 72.5 into the form: it keeps the form's previous
koroneiki values 0.20 / 70. -/
theorem cropChange_unknown_id_keeps_old_values :
    CROP_TYPES.find? (fun c => c.id == fdUnknownCrop.cropType) = none ∧
    ¬ ((cropChangeEffect fdUnknownCrop).biomassFactor = some 0.175 ∧
       (cropChangeEffect fdUnknownCrop).moistureContent = some 72.5) := by
  decide

/-- Claim C6 (amended): for every form whose crop id is absent from the
catalog, the lookup returns `none`, the derived `selectedCrop` falls back to
the first catalog entry (tunisian-olive), and the crop-change effect leaves
the whole form unchanged rather than overwriting its fields. -/
theorem cropLookup_unknown_fallback (fd : FormData)
    (h : CROP_TYPES.find? (fun c => c.id == fd.cropType) = none) :
    selectedCrop fd.cropType = tunisianOliveCrop ∧ cropChangeEffect fd = fd := by
  constructor
  · unfold selectedCrop
    rw [h]
    rfl
  · unfold cropChangeEffect
    rw [h]

/-- Witness for C6 (amended) at the concrete unknown id "mystery-olive". -/
theorem cropLookup_unknown_fallback_witness :
    selectedCrop fdUnknownCrop.cropType = tunisianOliveCrop ∧
    cropChangeEffect fdUnknownCrop = fdUnknownCrop :=
  cropLookup_unknown_fallback fdUnknownCrop (by decide)

/-- Claim C7: when the crop id is found in the catalog, the crop-change
effect overwrites exactly `biomassFactor` and `moistureContent` with the
profile's values, leaves the crop id and the four other numeric fields
unchanged, and running it a second time changes nothing further. -/
theorem cropChangeEffect_overwrite_frame (fd : FormData) (crop : CropType)
    (h : CROP_TYPES.find? (fun c => c.id == fd.cropType) = some crop) :
    cropChangeEffect fd =
      { fd with biomassFactor := some crop.biomassFactor,
                moistureContent := some crop.moistureContent } ∧
    (cropChangeEffect fd).cropType = fd.cropType ∧
    (cropChangeEffect fd).totalMass = fd.totalMass ∧
    (cropChangeEffect fd).lossFraction = fd.lossFraction ∧
    (cropChangeEffect fd).processingFactor = fd.processingFactor ∧
    (cropChangeEffect fd).recoveryEfficiency = fd.recoveryEfficiency ∧
    cropChangeEffect (cropChangeEffect fd) = cropChangeEffect fd := by
  have he : cropChangeEffect fd =
      { fd with biomassFactor := some crop.biomassFactor,
                moistureContent := some crop.moistureContent } := by
    unfold cropChangeEffect
    rw [h]
  have h2 : CROP_TYPES.find? (fun c => c.id ==
      ({ fd with biomassFactor := some crop.biomassFactor,
                 moistureContent := some crop.moistureContent } : FormData).cropType) =
      some crop := h
  have he2 : cropChangeEffect
      { fd with biomassFactor := some crop.biomassFactor,
                moistureContent := some crop.moistureContent } =
      { fd with biomassFactor := some crop.biomassFactor,
                moistureContent := some crop.moistureContent } := by
    unfold cropChangeEffect
    rw [h2]
  refine ⟨he, by rw [he], by rw [he], by rw [he], by rw [he], by rw [he], ?_⟩
  rw [he]
  exact he2

/-- Witness for C7 at the koroneiki-olive selection. -/
theorem cropChangeEffect_overwrite_frame_witness :
    cropChangeEffect fdKoroneiki =
      { fdKoroneiki with biomassFactor := some koroneikiCrop.biomassFactor,
                         moistureContent := some koroneikiCrop.moistureContent } ∧
    (cropChangeEffect fdKoroneiki).cropType = fdKoroneiki.cropType ∧
    (cropChangeEffect fdKoroneiki).totalMass = fdKoroneiki.totalMass ∧
    (cropChangeEffect fdKoroneiki).lossFraction = fdKoroneiki.lossFraction ∧
    (cropChangeEffect fdKoroneiki).processingFactor = fdKoroneiki.processingFactor ∧
    (cropChangeEffect fdKoroneiki).recoveryEfficiency = fdKoroneiki.recoveryEfficiency ∧
    cropChangeEffect (cropChangeEffect fdKoroneiki) = cropChangeEffect fdKoroneiki :=
  cropChangeEffect_overwrite_frame fdKoroneiki koroneikiCrop (by decide)

/-- Claim C8: every field's validation outcome depends only on that field
(the six checks are independent, with no short-circuit), errors are returned
as data in the `ValidationErrors` record, and a form whose only bad field is
`lossFraction = 150` yields an error entry for exactly that field. -/
theorem validateInputs_field_independence :
    (∀ fd₁ fd₂ : FormData, fd₁.totalMass = fd₂.totalMass →
        (validateInputs fd₁).totalMass = (validateInputs fd₂).totalMass) ∧
    (∀ fd₁ fd₂ : FormData, fd₁.lossFraction = fd₂.lossFraction →
        (validateInputs fd₁).lossFraction = (validateInputs fd₂).lossFraction) ∧
    (∀ fd₁ fd₂ : FormData, fd₁.processingFactor = fd₂.processingFactor →
        (validateInputs fd₁).processingFactor = (validateInputs fd₂).processingFactor) ∧
    (∀ fd₁ fd₂ : FormData, fd₁.moistureContent = fd₂.moistureContent →
        (validateInputs fd₁).moistureContent = (validateInputs fd₂).moistureContent) ∧
    (∀ fd₁ fd₂ : FormData, fd₁.recoveryEfficiency = fd₂.recoveryEfficiency →
        (validateInputs fd₁).recoveryEfficiency = (validateInputs fd₂).recoveryEfficiency) ∧
    (∀ fd₁ fd₂ : FormData, fd₁.biomassFactor = fd₂.biomassFactor →
        (validateInputs fd₁).biomassFactor = (validateInputs fd₂).biomassFactor) ∧
    validateInputs fdLoss150 =
      ⟨none, some "Loss fraction must be between 0 and 100%", none, none, none, none⟩ := by
  refine ⟨?_, ?_, ?_, ?_, ?_, ?_, by decide⟩ <;>
    (intro fd₁ fd₂ h; simp only [validateInputs, h])

/-- Witness for C8: two forms sharing only their loss fraction get the same
loss-fraction validation outcome. -/
theorem validateInputs_field_independence_witness :
    (validateInputs fd100).lossFraction = (validateInputs fd10).lossFraction :=
  validateInputs_field_independence.2.1 fd100 fd10 rfl

lemma jsPositive_check (x : JSNum) (msg : String) :
    (if x.isNaN || x.le (.fin 0) then some msg else none) = none ↔
      x = .inf true ∨ ∃ q, x = .fin q ∧ 0 < q := by
  cases x with
  | nan => simp [JSNum.isNaN, JSNum.le]
  | inf b => cases b <;> simp [JSNum.isNaN, JSNum.le, JSNum.lt]
  | fin q =>
      by_cases hq : 0 < q
      · simp [JSNum.isNaN, JSNum.le, JSNum.lt, hq]
      · simp [JSNum.isNaN, JSNum.le, JSNum.lt, hq]

lemma jsPercent_check (x : JSNum) (msg : String) :
    (if x.isNaN || x.lt (.fin 0) || (JSNum.fin 100).lt x then some msg else none) = none ↔
      ∃ q, x = .fin q ∧ 0 ≤ q ∧ q ≤ 100 := by
  cases x with
  | nan => simp [JSNum.isNaN, JSNum.lt]
  | inf b => cases b <;> simp [JSNum.isNaN, JSNum.lt]
  | fin q =>
      by_cases h0 : q < 0
      · simp [JSNum.isNaN, JSNum.lt, h0, not_le.mpr h0]
      · by_cases h100 : 100 < q
        · simp [JSNum.isNaN, JSNum.lt, h0, h100, not_le.mpr h100]
        · simp [JSNum.isNaN, JSNum.lt, h0, h100, not_lt.mp h0, not_lt.mp h100]

/-- Claim C2 counterexample: a totalMass that parsed to `+Infinity` (typed
input "1e999") is numeric (not NaN) but not a finite positive real, yet
`validateInputs` accepts it — `Infinity <= 0` is false in JavaScript — so
"totalMassKg fails iff missing, non-numeric, or not a finite positive real"
is false of the program. -/
theorem validateInputs_accepts_infinite_mass :
    jsFormInfMass.totalMass.isNaN = false ∧
    jsFormInfMass.totalMass.isFinite = false ∧
    (validateInputsJS jsFormInfMass).totalMass = none := by
  decide

/-- Claim C2 (amended): over full JavaScript numbers, `validateInputs`
accepts `totalMass`, `processingFactor` and `biomassFactor` exactly when
positive in JavaScript's extended order — a finite positive real or
`+Infinity` — and rejects missing/non-numeric (NaN) entries and values
`<= 0`; the three percentage fields are accepted exactly at finite values
in `[0,100]`, the boundaries 0 and 100 included, and every value strictly
outside (the infinities included) is rejected. -/
theorem validateInputsJS_range_characterisation (fd : JSFormData) :
    ((validateInputsJS fd).totalMass = none ↔
      fd.totalMass = .inf true ∨ ∃ q, fd.totalMass = .fin q ∧ 0 < q) ∧
    ((validateInputsJS fd).processingFactor = none ↔
      fd.processingFactor = .inf true ∨ ∃ q, fd.processingFactor = .fin q ∧ 0 < q) ∧
    ((validateInputsJS fd).biomassFactor = none ↔
      fd.biomassFactor = .inf true ∨ ∃ q, fd.biomassFactor = .fin q ∧ 0 < q) ∧
    ((validateInputsJS fd).lossFraction = none ↔
      ∃ q, fd.lossFraction = .fin q ∧ 0 ≤ q ∧ q ≤ 100) ∧
    ((validateInputsJS fd).moistureContent = none ↔
      ∃ q, fd.moistureContent = .fin q ∧ 0 ≤ q ∧ q ≤ 100) ∧
    ((validateInputsJS fd).recoveryEfficiency = none ↔
      ∃ q, fd.recoveryEfficiency = .fin q ∧ 0 ≤ q ∧ q ≤ 100) :=
  ⟨jsPositive_check fd.totalMass _, jsPositive_check fd.processingFactor _,
   jsPositive_check fd.biomassFactor _, jsPercent_check fd.lossFraction _,
   jsPercent_check fd.moistureContent _, jsPercent_check fd.recoveryEfficiency _⟩

/-- Claim C9 counterexample: the form with `+Infinity` mass and loss
fraction exactly 100 passes the program's validation, and the formula then
computes `Infinity × 0 = NaN`: the returned value is NaN, which is not a
non-negative real number. -/
theorem calculateWaterVolume_nan_on_infinite_mass :
    (validateInputsJS jsFormInfMassFullLoss).isEmpty = true ∧
    calculateWaterVolumeJS jsFormInfMassFullLoss = some JSNum.nan ∧
    JSNum.nan.isFinite = false := by
  decide

/-- Claim C9 (amended): whenever the form passes validation and all six of
its numeric fields are finite, `calculateWaterVolume` returns a finite
non-negative number of liters.  (Validation also admits `+Infinity` for the
mass and the two factor fields, where the result can be NaN, as the
counterexample shows.) -/
theorem calculateWaterVolumeJS_nonneg_of_finite (fd : JSFormData)
    (mh lf ep mc re fb : Rat)
    (h1 : fd.totalMass = .fin mh) (h2 : fd.lossFraction = .fin lf)
    (h3 : fd.processingFactor = .fin ep) (h4 : fd.moistureContent = .fin mc)
    (h5 : fd.recoveryEfficiency = .fin re) (h6 : fd.biomassFactor = .fin fb)
    (hv : (validateInputsJS fd).isEmpty = true) :
    ∃ v : Rat, calculateWaterVolumeJS fd = some (.fin v) ∧ 0 ≤ v := by
  obtain ⟨e1, e2, e3, e4, e5, e6⟩ := isEmpty_fields _ hv
  have p1 : 0 < mh := by
    rcases (jsPositive_check fd.totalMass _).mp e1 with h | ⟨q, hq, hq0⟩
    · rw [h1] at h; cases h
    · rw [h1] at hq; injection hq with hq; subst hq; exact hq0
  have p3 : 0 < ep := by
    rcases (jsPositive_check fd.processingFactor _).mp e3 with h | ⟨q, hq, hq0⟩
    · rw [h3] at h; cases h
    · rw [h3] at hq; injection hq with hq; subst hq; exact hq0
  have p6 : 0 < fb := by
    rcases (jsPositive_check fd.biomassFactor _).mp e6 with h | ⟨q, hq, hq0⟩
    · rw [h6] at h; cases h
    · rw [h6] at hq; injection hq with hq; subst hq; exact hq0
  have p2 : 0 ≤ lf ∧ lf ≤ 100 := by
    obtain ⟨q, hq, hq0, hq100⟩ := (jsPercent_check fd.lossFraction _).mp e2
    rw [h2] at hq; injection hq with hq; subst hq; exact ⟨hq0, hq100⟩
  have p4 : 0 ≤ mc ∧ mc ≤ 100 := by
    obtain ⟨q, hq, hq0, hq100⟩ := (jsPercent_check fd.moistureContent _).mp e4
    rw [h4] at hq; injection hq with hq; subst hq; exact ⟨hq0, hq100⟩
  have p5 : 0 ≤ re ∧ re ≤ 100 := by
    obtain ⟨q, hq, hq0, hq100⟩ := (jsPercent_check fd.recoveryEfficiency _).mp e5
    rw [h5] at hq; injection hq with hq; subst hq; exact ⟨hq0, hq100⟩
  have hcalc : calculateWaterVolumeJS fd =
      some (.fin (mh * fb * (1 - lf / 100) * ep * (mc / 100) * (re / 100) / WATER_DENSITY)) := by
    simp [calculateWaterVolumeJS, hv, h1, h2, h3, h4, h5, h6,
      JSNum.mul, JSNum.sub, JSNum.div, WATER_DENSITY,
      (show (100 : Rat) ≠ 0 by norm_num), (show (1 : Rat) ≠ 0 by norm_num)]
  refine ⟨_, hcalc, ?_⟩
  have hloss : (0 : Rat) ≤ 1 - lf / 100 := by
    have := p2.2
    linarith
  have h0 : (0 : Rat) ≤ mh * fb * (1 - lf / 100) * ep * (mc / 100) * (re / 100) :=
    mul_nonneg
      (mul_nonneg
        (mul_nonneg (mul_nonneg (mul_nonneg p1.le p6.le) hloss) p3.le)
        (div_nonneg p4.1 (by norm_num)))
      (div_nonneg p5.1 (by norm_num))
  exact div_nonneg h0 (by norm_num [WATER_DENSITY])

/-- Witness for C9 (amended), on the scenario-1 form over JavaScript
numbers. -/
theorem calculateWaterVolumeJS_nonneg_of_finite_witness :
    ∃ v : Rat, calculateWaterVolumeJS jsFd100 = some (.fin v) ∧ 0 ≤ v :=
  calculateWaterVolumeJS_nonneg_of_finite jsFd100 100 20 1 72.5 50 0.175
    rfl rfl rfl rfl rfl rfl (by decide)
